import Mathlib

/-!
# A shallow embedding of pycloudlib's image-resolution, launch, snapshot,
# configuration-merge and polling logic

Definitions are translated from the repository sources
(`pycloudlib/cloud.py`, `pycloudlib/ec2/cloud.py`, `pycloudlib/oci/cloud.py`,
and — where the module is only present through its tests —
`pycloudlib/lxd/tests/test_instance.py` together with the specification).
Python exceptions are modelled with an explicit error type; functions that
can raise return `Except PyErr`.  Calls to the provider SDK are modelled as
oracle functions passed in as parameters; the queries / SDK calls a code
path issues are returned alongside the result so that "no network call is
made" style properties can be stated.
-/

/-- The Python exceptions that appear in the modelled code paths.
`exception` is a bare `Exception(msg)`; `keyError` is the error raised by a
failed dict lookup (`d[k]`); `indexError` by an out-of-range list index
(`l[0]` / `l[-1]`); `valueError` / `runtimeError` the homonymous Python
classes; `timeoutError` Python's `TimeoutError`. -/
inductive PyErr where
  | exception (msg : String)
  | valueError (msg : String)
  | keyError (key : String)
  | indexError
  | runtimeError (msg : String)
  | timeoutError (msg : String)
deriving DecidableEq, Repr

/-- Python truthiness of an optional string (`None` and `""` are falsy),
as used by `if not image_id:` and by the `x or y` fallback idiom. -/
def pyFalsy : Option String → Bool
  | none => true
  | some s => s = ""

/-- Python's `a or b` on optional strings: yields `a` when `a` is truthy
(not `None` and not `""`), otherwise `b`. -/
def pyOr (a b : Option String) : Option String :=
  if pyFalsy a then b else a

/-- Python's `str()` / f-string rendering of an optional string:
`None` renders as `"None"`. -/
def pyStr : Option String → String
  | none => "None"
  | some s => s

/-! ## A small backtracking regex engine

The sources use `re.match` with the fixed patterns
`ubuntu/.*/.*/.*-(?P<serial>\d+(\.\d+)?)$` (EC2 `_find_image_serial`) and
`^\d{2}\.\d{2}$` (OCI `daily_image`).  The engine below implements Python's
leftmost, greedy, backtracking semantics for the constructs those patterns
use: literal characters, `.` (any character except a newline), `\d`,
concatenation, greedy `*` over a single-character atom, and greedy `?`.
`$` (end of string, or just before a single trailing newline) is handled
by the continuation passed to the matcher. -/

/-- A single-character regex atom. -/
inductive RAtom where
  | dot : RAtom
  | digit : RAtom
  | chr (c : Char) : RAtom
deriving DecidableEq, Repr

/-- Regexes over the constructs used in the sources.  `star` is restricted
to single-character atoms, which is all the source patterns need. -/
inductive RE where
  | eps : RE
  | atom (a : RAtom) : RE
  | cat (r₁ r₂ : RE) : RE
  | star (a : RAtom) : RE
  | opt (r : RE) : RE
deriving Repr

/-- Whether an atom matches one character.  `.` matches anything except a
newline; `\d` matches a decimal digit. -/
def atomMatches : RAtom → Char → Bool
  | .dot, c => c ≠ '\n'
  | .digit, c => c.isDigit
  | .chr a, c => a = c

/-- Greedy backtracking for `a*`: try consuming `n` matching characters
first, then `n-1`, …, then `0`, handing the rest to the continuation. -/
def starTry (s : List Char) (k : List Char → Option α) : Nat → Option α
  | 0 => k s
  | n + 1 =>
    match k (s.drop (n + 1)) with
    | some v => some v
    | none => starTry s k n

/-- The backtracking matcher: `reRun r s k` matches `r` against a prefix of
`s` and passes each candidate remainder to `k`, in Python's exploration
order (greedy operators try longer matches first); the first success
wins. -/
def reRun : RE → List Char → (List Char → Option α) → Option α
  | .eps, s, k => k s
  | .atom _, [], _ => none
  | .atom a, c :: s, k => if atomMatches a c then k s else none
  | .cat r₁ r₂, s, k => reRun r₁ s (fun s₁ => reRun r₂ s₁ k)
  | .star a, s, k => starTry s k (s.takeWhile (atomMatches a)).length
  | .opt r, s, k =>
    match reRun r s k with
    | some v => some v
    | none => k s

/-- Python's `$`: end of input, or just before a single trailing newline. -/
def dollarEnd (s : List Char) : Bool :=
  s = [] ∨ s = ['\n']

/-- A regex matching one literal string. -/
def strRE (s : String) : RE :=
  s.data.foldr (fun c r => .cat (.atom (.chr c)) r) .eps

/-- The regex `\d+`. -/
def digitsRE : RE := .cat (.atom .digit) (.star .digit)

/-! ## EC2 adapter (`pycloudlib/ec2/cloud.py`)

`pycloudlib/util.py` (which defines `LTS_RELEASES` and
`UBUNTU_RELEASE_VERSION_MAP`) is not among the sources, so the release
list and the release-to-version mapping are taken as parameters: the list
of LTS release names and a partial map from release name to numeric
version (a missing key makes `UBUNTU_RELEASE_VERSION_MAP[release]` raise
`KeyError`, which is Python dict-lookup semantics). -/

/-- The enum `ImageType` from `pycloudlib/cloud.py`: the closed enumeration of
image families. -/
inductive ImageType where
  | GENERIC
  | PRO
  | PRO_FIPS
deriving DecidableEq, Repr

/-- The `.value` of each `ImageType` enum member. -/
def ImageType.val : ImageType → String
  | .GENERIC => "generic"
  | .PRO => "Pro"
  | .PRO_FIPS => "Pro FIPS"

/-- An EC2 image record as returned by `describe_images`: the fields the
modelled code reads (`ImageId`, `CreationDate`, `Name`). -/
structure EC2Image where
  imageId : String
  creationDate : String
  name : String
deriving DecidableEq, Repr

/-- A `describe_images` catalog query: the owner and the two filters
(`name` glob, `architecture`) built by `_get_search_filters`. -/
structure EC2Query where
  owner : String
  namePattern : String
  arch : String
deriving DecidableEq, Repr

/-- Model of `EC2._get_name_for_image_type`: builds the name glob for a release and
image type.  `versionMap` stands for `UBUNTU_RELEASE_VERSION_MAP` and
`lts` for `LTS_RELEASES` (both live in `pycloudlib/util.py`, outside the
given sources); a lookup miss on the PRO / PRO_FIPS paths is the Python
`KeyError` of `UBUNTU_RELEASE_VERSION_MAP[release]`. -/
def getNameForImageType (versionMap : String → Option String)
    (lts : List String) (release : String) (imageType : ImageType)
    (daily : Bool) : Except PyErr String :=
  match imageType with
  | .GENERIC =>
    let baseLocation := "ubuntu/" ++ (if daily then "images-testing" else "images") ++ "/hvm-ssd"
    if release ∈ lts then
      .ok (baseLocation ++ "/ubuntu-" ++ release ++ (if daily then "-daily" else "") ++ "-*-server-*")
    else
      .ok (baseLocation ++ "/ubuntu-" ++ release ++ (if daily then "-daily" else "") ++ "-*")
  | .PRO =>
    match versionMap release with
    | none => .error (.keyError release)
    | some v => .ok ("ubuntu-pro-server/images/hvm-ssd/ubuntu-" ++ release ++ "-" ++ v ++ "-*")
  | .PRO_FIPS =>
    match versionMap release with
    | none => .error (.keyError release)
    | some v => .ok ("ubuntu-pro-fips*/images/hvm-ssd/ubuntu-" ++ release ++ "-" ++ v ++ "-*")

/-- Model of `EC2._get_owner`. -/
def getOwner (imageType : ImageType) : String :=
  if imageType = .GENERIC then "099720109477" else "aws-marketplace"

/-- The comparison key of `sorted(images, key=lambda x: x["CreationDate"])`:
`CreationDate` strings compared lexicographically, as Python compares
`str`. -/
def creationLe (a b : EC2Image) : Prop :=
  a.creationDate ≤ b.creationDate

instance : DecidableRel creationLe := fun a b =>
  inferInstanceAs (Decidable (a.creationDate ≤ b.creationDate))

instance : IsTotal EC2Image creationLe :=
  ⟨fun a b => le_total a.creationDate b.creationDate⟩

instance : IsTrans EC2Image creationLe :=
  ⟨fun _ _ _ hab hbc => le_trans hab hbc⟩

/-- Python's `sorted(images, key=lambda x: x["CreationDate"])`: a stable
ascending sort on the `CreationDate` key (insertion sort is stable, like
Python's sort). -/
def sortImages (images : List EC2Image) : List EC2Image :=
  List.insertionSort creationLe images

/-- The selection step of `EC2._find_latest_image` applied to the list an
already-issued `describe_images` call returned: raise when the list is
empty (`if not images.get("Images")`), otherwise
`sorted(images["Images"], key=...)[-1]`.  The `[-1]` on an empty list
would be Python's `IndexError`; it is unreachable behind the guard. -/
def selectLatestImage (imageTypeVal release : String)
    (images : List EC2Image) : Except PyErr EC2Image :=
  if images.isEmpty then
    .error (.exception ("Could not find " ++ imageTypeVal ++ " image for " ++ release ++ " release"))
  else
    match (sortImages images).getLast? with
    | some img => .ok img
    | none => .error .indexError

/-- Model of `EC2._find_latest_image`: build the filters (which can raise before
any query on the PRO paths), issue the single `describe_images` query
against the catalog oracle, and select.  The second component is the list
of catalog queries actually issued, in order. -/
def ec2FindLatestImage (versionMap : String → Option String)
    (lts : List String) (catalog : EC2Query → List EC2Image)
    (release arch : String) (imageType : ImageType) (daily : Bool) :
    Except PyErr EC2Image × List EC2Query :=
  match getNameForImageType versionMap lts release imageType daily with
  | .error e => (.error e, [])
  | .ok pat =>
    let q : EC2Query := ⟨getOwner imageType, pat, arch⟩
    let images := catalog q
    (selectLatestImage imageType.val release images, [q])

/-- Model of `EC2.released_image`: `_find_latest_image(..., daily=False)["ImageId"]`. -/
def ec2ReleasedImage (versionMap : String → Option String)
    (lts : List String) (catalog : EC2Query → List EC2Image)
    (release arch : String) (imageType : ImageType) :
    Except PyErr String × List EC2Query :=
  let (r, qs) := ec2FindLatestImage versionMap lts catalog release arch imageType false
  (r.map (·.imageId), qs)

/-- Model of `EC2.daily_image`: `_find_latest_image(..., daily=True)["ImageId"]`. -/
def ec2DailyImage (versionMap : String → Option String)
    (lts : List String) (catalog : EC2Query → List EC2Image)
    (release arch : String) (imageType : ImageType) :
    Except PyErr String × List EC2Query :=
  let (r, qs) := ec2FindLatestImage versionMap lts catalog release arch imageType true
  (r.map (·.imageId), qs)

/-- The fixed pattern of `EC2._find_image_serial`,
`ubuntu/.*/.*/.*-(?P<serial>\d+(\.\d+)?)$`, split as the part before the
capture group…  -/
def serialHeadRE : RE :=
  .cat (strRE "ubuntu/")
    (.cat (.star .dot)
      (.cat (.atom (.chr '/'))
        (.cat (.star .dot)
          (.cat (.atom (.chr '/'))
            (.cat (.star .dot) (.atom (.chr '-')))))))

/-- …and the capture group `\d+(\.\d+)?` itself. -/
def serialGroupRE : RE :=
  .cat digitsRE (.opt (.cat (.atom (.chr '.')) digitsRE))

/-- Model of `re.match(r"ubuntu/.*/.*/.*-(?P<serial>\d+(\.\d+)?)$", name)` followed
by extraction of the `serial` group: anchored at the start, greedy,
backtracking; returns the text the capture group consumed. -/
def matchSerial (name : String) : Option String :=
  reRun serialHeadRE name.data (fun rest =>
    reRun serialGroupRE rest (fun rest₂ =>
      if dollarEnd rest₂ then
        some (String.mk (rest.take (rest.length - rest₂.length)))
      else none))

/-- Model of `EC2._find_image_serial`: look the image up by id (modelled as an
oracle from image id to the `describe_images` result list), take the first
record's `Name` (`""` when absent is already folded into the record), and
match the serial pattern; each failure raises the `Exception` the source
raises. -/
def ec2FindImageSerial (byId : String → List EC2Image)
    (imageId : String) : Except PyErr String :=
  match (byId imageId).head? with
  | none => .error (.exception ("Could not find image: " ++ imageId))
  | some img =>
    match matchSerial img.name with
    | none => .error (.exception ("Could not find image serial for image: " ++ imageId))
    | some serial => .ok serial

/-- Model of `EC2.image_serial`: a logged passthrough to `_find_image_serial`. -/
def ec2ImageSerial (byId : String → List EC2Image)
    (imageId : String) : Except PyErr String :=
  ec2FindImageSerial byId imageId

/-! ## Launch (`EC2.launch`, `OCI.launch`)

Only what the claims need is modelled in depth: the `if not image_id`
guard comes first, and every provider SDK call made afterwards is recorded
as an event, so "no provider launch request is issued" is the statement
that the event list is empty. -/

/-- The SDK calls a launch code path can make, in order. -/
inductive LaunchEvent where
  | createInstances
  | subnetQuery
  | launchInstance
deriving DecidableEq, Repr

/-- Model of `EC2.launch`: the `if not image_id: raise ValueError(...)` guard, then
the optional VPC subnet disambiguation (`RuntimeError` when the VPC does
not have exactly one subnet), then `create_instances`.  `createInst` is
the oracle for the SDK call, returning the new instance id. -/
def ec2Launch (vpcId : String) (imageId : Option String)
    (vpcSubnets : Option (List String))
    (createInst : Except PyErr String) :
    Except PyErr String × List LaunchEvent :=
  if pyFalsy imageId then
    (.error (.valueError ("ec2 launch requires image_id param. Found: " ++ pyStr imageId)), [])
  else
    match vpcSubnets with
    | some subnets =>
      match subnets with
      | [_] =>
        (createInst, [.createInstances])
      | _ =>
        (.error (.runtimeError ("Too many subnets in vpc " ++ vpcId ++ ". pycloudlib does not support launching into VPCs with multiple subnets")), [])
    | none => (createInst, [.createInstances])

/-- Model of `OCI.launch`: the same guard, then `get_subnet_id` (a network call)
and `launch_instance`. -/
def ociLaunch (imageId : Option String)
    (subnetLookup : Except PyErr String)
    (launchInst : Except PyErr String) :
    Except PyErr String × List LaunchEvent :=
  if pyFalsy imageId then
    (.error (.valueError ("oci launch requires image_id param. Found: " ++ pyStr imageId)), [])
  else
    match subnetLookup with
    | .error e => (.error e, [.subnetQuery])
    | .ok _ =>
      (launchInst, [.subnetQuery, .launchInstance])

/-! ## Snapshot (`EC2.snapshot`)

The body is a straight-line sequence with no `try`/`finally`:
`clean` (optional) → `shutdown(wait=True)` → `create_image` →
`_wait_for_snapshot` → `_tag_resource` → `instance.start(wait=True)` →
return the image id.  Each step is an oracle; an exception anywhere
aborts the rest.  The event list records which steps were invoked. -/

/-- The steps of `EC2.snapshot`, in source order. -/
inductive SnapEvent where
  | clean
  | shutdown
  | createImage
  | waitSnapshot
  | tagResource
  | start
deriving DecidableEq, Repr

/-- The outcomes of the external steps `EC2.snapshot` performs. -/
structure SnapOracles where
  clean : Except PyErr Unit
  shutdown : Except PyErr Unit
  createImage : Except PyErr String
  waitSnapshot : Except PyErr Unit
  tagResource : Except PyErr Unit
  start : Except PyErr Unit

/-- Model of `EC2.snapshot`: the straight-line body described above. -/
def ec2Snapshot (clean : Bool) (o : SnapOracles) :
    Except PyErr String × List SnapEvent :=
  let cleanEvents : List SnapEvent := if clean then [.clean] else []
  let cleanResult : Except PyErr Unit := if clean then o.clean else .ok ()
  match cleanResult with
  | .error e => (.error e, cleanEvents)
  | .ok _ =>
    match o.shutdown with
    | .error e => (.error e, cleanEvents ++ [.shutdown])
    | .ok _ =>
      match o.createImage with
      | .error e => (.error e, cleanEvents ++ [.shutdown, .createImage])
      | .ok imageId =>
        match o.waitSnapshot with
        | .error e => (.error e, cleanEvents ++ [.shutdown, .createImage, .waitSnapshot])
        | .ok _ =>
          match o.tagResource with
          | .error e => (.error e, cleanEvents ++ [.shutdown, .createImage, .waitSnapshot, .tagResource])
          | .ok _ =>
            match o.start with
            | .error e => (.error e, cleanEvents ++ [.shutdown, .createImage, .waitSnapshot, .tagResource, .start])
            | .ok _ => (.ok imageId, cleanEvents ++ [.shutdown, .createImage, .waitSnapshot, .tagResource, .start])

/-! ## Configuration merge (`BaseCloud.check_and_set_config`,
`EC2.__init__` credential resolution)

`parse_config(config_file)[self._type]` is modelled as an oracle giving
the provider section as a partial map from key to value.  The boolean in
the result records whether the configuration file was loaded. -/

/-- Model of `BaseCloud.check_and_set_config`: when `required_values` is non-empty
and every entry is not `None`, `self.config = {}` and the file is not
loaded; otherwise the file is parsed and the provider section becomes
`self.config`. -/
def checkAndSetConfig (fileSection : String → Option String)
    (requiredValues : List (Option String)) :
    (String → Option String) × Bool :=
  if ¬ requiredValues.isEmpty ∧ requiredValues.all (·.isSome) then
    (fun _ => none, false)
  else
    (fileSection, true)

/-- Model of `EC2.__init__`: `check_and_set_config` with the three required values,
then each credential resolved as
`argument or self.config.get(key)` (Python `or`, so an empty-string
argument falls through to the config value).  Returns the resolved
`(access_key_id, secret_access_key, region)` and whether the file was
loaded. -/
def ec2InitCreds (fileSection : String → Option String)
    (accessKeyId secretAccessKey region : Option String) :
    (Option String × Option String × Option String) × Bool :=
  let (config, loaded) :=
    checkAndSetConfig fileSection [accessKeyId, secretAccessKey, region]
  ((pyOr accessKeyId (config "access_key_id"),
    pyOr secretAccessKey (config "secret_access_key"),
    pyOr region (config "region")), loaded)

/-! ## OCI adapter (`pycloudlib/oci/cloud.py`) -/

/-- An OCI image record: the fields `daily_image` reads (`id`,
`display_name`). -/
structure OciImage where
  id : String
  displayName : String
deriving DecidableEq, Repr

/-- A `list_images` query as issued by `OCI.daily_image`. -/
structure OciQuery where
  compartmentId : String
  operatingSystem : String
  operatingSystemVersion : String
  sortBy : String
  sortOrder : String
deriving DecidableEq, Repr

/-- Python's `"needle" in haystack` on strings: substring containment. -/
def strContainsSub (haystack needle : String) : Bool :=
  haystack.data.tails.any (fun t => needle.data.isPrefixOf t)

/-- The pattern of `re.match(r"^\d{2}\.\d{2}$", release)` from `OCI.daily_image`:
two digits, a dot, two digits, anchored on both sides. -/
def versionShapeRE : RE :=
  .cat (.atom .digit)
    (.cat (.atom .digit)
      (.cat (.atom (.chr '.'))
        (.cat (.atom .digit) (.atom .digit))))

/-- Whether `release` matches `^\d{2}\.\d{2}$`. -/
def matchesVersionShape (release : String) : Bool :=
  (reRun versionShapeRE release.data (fun rest =>
    if dollarEnd rest then some () else none)).isSome

/-- Model of `OCI.daily_image`: for `"Canonical Ubuntu"`, a release that does not
look like `NN.NN` goes through `UBUNTU_RELEASE_VERSION_MAP` (an unknown
name raises `ValueError("Invalid release")`); then one `list_images` query
is issued (sorted by the server, `TIMECREATED` descending), images whose
display name contains `"aarch64"` or `"GPU"` are dropped, and
`matching_image[0].id` is taken — which raises `IndexError` when nothing
is left.  The second component lists the catalog queries issued. -/
def ociDailyImage (versionMap : String → Option String)
    (catalog : OciQuery → List OciImage) (compartmentId : String)
    (release : String) (operatingSystem : String) :
    Except PyErr String × List OciQuery :=
  let release? : Except PyErr String :=
    if operatingSystem = "Canonical Ubuntu" ∧ ¬ matchesVersionShape release then
      match versionMap release with
      | none => .error (.valueError "Invalid release")
      | some v => .ok v
    else .ok release
  match release? with
  | .error e => (.error e, [])
  | .ok rel =>
    let q : OciQuery := ⟨compartmentId, operatingSystem, rel, "TIMECREATED", "DESC"⟩
    let matchingImage := (catalog q).filter (fun i =>
      ¬ strContainsSub i.displayName "aarch64" ∧ ¬ strContainsSub i.displayName "GPU")
    match matchingImage.head? with
    | none => (.error .indexError, [q])
    | some i => (.ok i.id, [q])

/-- Model of `OCI.released_image`: `return self.daily_image(release,
operating_system)` — a pure delegation. -/
def ociReleasedImage (versionMap : String → Option String)
    (catalog : OciQuery → List OciImage) (compartmentId : String)
    (release : String) (operatingSystem : String) :
    Except PyErr String × List OciQuery :=
  ociDailyImage versionMap catalog compartmentId release operatingSystem

/-! ## LXD instance polling (`pycloudlib/lxd/instance.py`)

`pycloudlib/lxd/instance.py` itself is not among the sources; only its
unit tests (`pycloudlib/lxd/tests/test_instance.py`) are.  The models
below are therefore constructed from the specification (§4.3, the
convergence waiter and its IP-discovery / ephemeral special cases) and
from the exact behaviour those tests pin down: attempt counts, sleep
counts, the retry conditions and the `TimeoutError` message. -/

/-- The record `pycloudlib.result.Result` returned by `subp`: raw process
output. -/
structure SubpResult where
  stdout : String
  stderr : String
  returnCode : Nat
deriving DecidableEq, Repr

/-- An IPv4-shaped regex, `\d+\.\d+\.\d+\.\d+`. -/
def ipv4RE : RE :=
  .cat digitsRE
    (.cat (.atom (.chr '.'))
      (.cat digitsRE
        (.cat (.atom (.chr '.'))
          (.cat digitsRE
            (.cat (.atom (.chr '.')) digitsRE)))))

/-- Match `r` at the start of `s` and return the consumed text. -/
def reMatchHere (r : RE) (s : List Char) : Option (List Char) :=
  reRun r s (fun rest => some (s.take (s.length - rest.length)))

/-- Python's `re.search`: the leftmost match of `r` in `s` (greedy at each start
position), as a list of consumed characters. -/
def reSearch (r : RE) : List Char → Option (List Char)
  | [] => reMatchHere r []
  | c :: s =>
    match reMatchHere r (c :: s) with
    | some m => some m
    | none => reSearch r s

/-- Modelled from the spec: IP parsing out of the raw `lxc list` output
(`pycloudlib/lxd/instance.py` is not under src).  Unstructured text such
as `"10.69.10.5 (eth0)\n"` yields `"10.69.10.5"`; malformed text or an
empty string yields nothing (§4.3: "parsing may yield no usable address
on a given poll (malformed text, non-zero exit code, or empty string)"). -/
def ipFromStdout (stdout : String) : Option String :=
  (reSearch ipv4RE stdout.data).map String.mk

/-- Modelled from the spec: one poll of the IP-discovery loop succeeds
only when the `lxc list` call exited with status 0 and an IPv4 address
can be parsed from its stdout; a non-zero exit code, malformed text and
an empty string are all retryable (test `TestIP`, §4.3). -/
def pollParsedIp (r : SubpResult) : Option String :=
  if r.returnCode = 0 then ipFromStdout r.stdout else none

/-- The `TimeoutError` message pinned down by `TestIP`:
`"Unable to determine IP address after {n} retries. exit:{rc} stdout:
{out} stderr: {err}"` built from the final observed raw result. -/
def ipTimeoutMsg (total : Nat) (r : SubpResult) : String :=
  "Unable to determine IP address after " ++ toString total ++
    " retries. exit:" ++ toString r.returnCode ++ " stdout: " ++ r.stdout ++
    " stderr: " ++ r.stderr

/-- Modelled from the spec: the IP-discovery polling loop
(`LXDInstance.ip`, not under src; behaviour fixed by `TestIP` and §4.3).
`poll i` is the `subp(["lxc", "list", ...])` result of attempt `i`
(0-based).  Up to `total` attempts are made; each failed attempt is
followed by one `time.sleep` (also after the last, as the test's sleep
counts show); on exhaustion a `TimeoutError` carrying the final raw
result is raised.  Returns (result, subp calls made, sleeps made);
`remaining` starts at `total`. -/
def lxdIpGo (poll : Nat → SubpResult) (total : Nat) :
    Nat → Except PyErr String × Nat × Nat
  | 0 => (.error (.timeoutError (ipTimeoutMsg total (poll (total - 1)))), 0, 0)
  | n + 1 =>
    let r := poll (total - (n + 1))
    match pollParsedIp r with
    | some ip => (.ok ip, 1, 0)
    | none =>
      let (res, calls, sleeps) := lxdIpGo poll total n
      (res, calls + 1, sleeps + 1)

/-- Modelled from the spec: `LXDInstance.ip` with attempt budget
`budget` (150 in the code, per `TestIP`). -/
def lxdIp (budget : Nat) (poll : Nat → SubpResult) :
    Except PyErr String × Nat × Nat :=
  lxdIpGo poll budget budget

/-- Modelled from the spec: the generic state-convergence waiter
(`wait_for_state`, not under src; §4.3): poll the instance state until it
equals `target`, up to `budget` attempts, raising `TimeoutError` carrying
the last observed state on exhaustion.  Returns (result, poll calls). -/
def waitForState (target : String) (poll : Nat → String) (budget : Nat) :
    Nat → Except PyErr Unit × Nat
  | 0 =>
    (.error (.timeoutError ("Expected " ++ target ++ " but got " ++ poll (budget - 1))), 0)
  | n + 1 =>
    if poll (budget - (n + 1)) = target then (.ok (), 1)
    else
      let (res, calls) := waitForState target poll budget n
      (res, calls + 1)

/-- Modelled from the spec: `LXDInstance.wait_for_stop` (not under src;
behaviour fixed by `TestWaitForStop` and §4.3): for an ephemeral instance
the stopped-state wait is skipped entirely; otherwise `wait_for_state` is
invoked exactly once with the stopped target.  Returns
(result, number of `wait_for_state` invocations, poll calls made). -/
def lxdWaitForStop (ephemeral : Bool) (poll : Nat → String)
    (budget : Nat) : Except PyErr Unit × Nat × Nat :=
  if ephemeral then (.ok (), 0, 0)
  else
    let (res, calls) := waitForState "stopped" poll budget budget
    (res, 1, calls)

/-! ## Lemmas about the tie-break selection -/

/-- The last element delivered by `getLast?` is a member of the list. -/
theorem mem_of_getLast?_eq {α : Type} :
    ∀ (l : List α) (m : α), l.getLast? = some m → m ∈ l := by
  intro l
  induction l with
  | nil => intro m h; simp at h
  | cons a t ih =>
    intro m h
    cases t with
    | nil =>
      simp [List.getLast?] at h
      simp [h]
    | cons b t' =>
      rw [List.getLast?_cons_cons] at h
      exact List.mem_cons_of_mem a (ih m h)

/-- In a list sorted by a reflexive relation, every element is related to
the last element. -/
theorem sorted_rel_getLast {α : Type} {r : α → α → Prop}
    (hrefl : ∀ a, r a a) :
    ∀ (l : List α), l.Sorted r → ∀ m, l.getLast? = some m →
      ∀ x ∈ l, r x m := by
  intro l
  induction l with
  | nil => intro _ m h; simp at h
  | cons a t ih =>
    intro hs m h x hx
    cases t with
    | nil =>
      simp [List.getLast?] at h
      rcases List.mem_singleton.mp hx with rfl
      rw [← h]
      exact hrefl x
    | cons b t' =>
      rw [List.getLast?_cons_cons] at h
      rcases List.mem_cons.mp hx with rfl | hx'
      · exact (List.sorted_cons.mp hs).1 m (mem_of_getLast?_eq _ _ h)
      · exact ih (List.sorted_cons.mp hs).2 m h x hx'

/-- Reflexivity of `creationLe`. -/
theorem creationLe_refl (a : EC2Image) : creationLe a a :=
  le_refl a.creationDate

/-- The selection step of `_find_latest_image` on a non-empty candidate
list succeeds and returns a candidate whose creation timestamp is maximal. -/
theorem selectLatestImage_ok_max (itv rel : String) (l : List EC2Image)
    (hne : l ≠ []) :
    ∃ img, selectLatestImage itv rel l = .ok img ∧ img ∈ l ∧
      ∀ x ∈ l, x.creationDate ≤ img.creationDate := by
  have hperm : (sortImages l).Perm l := List.perm_insertionSort creationLe l
  have hsorted : (sortImages l).Sorted creationLe :=
    List.sorted_insertionSort creationLe l
  have hne' : sortImages l ≠ [] := fun h => hne (List.Perm.nil_eq (h ▸ hperm)).symm
  obtain ⟨m, hm⟩ : ∃ m, (sortImages l).getLast? = some m := by
    cases hsl : (sortImages l).getLast? with
    | none => exact absurd (List.getLast?_eq_none_iff.mp hsl) hne'
    | some m => exact ⟨m, rfl⟩
  refine ⟨m, ?_, hperm.subset (mem_of_getLast?_eq _ _ hm), ?_⟩
  · cases l with
    | nil => exact absurd rfl hne
    | cons a t => simp [selectLatestImage, hm]
  · intro x hx
    exact sorted_rel_getLast creationLe_refl _ hsorted m hm x
      (hperm.mem_iff.mpr hx)

/-! ## Claim theorems -/

/-- C1: For every catalog query result containing at least one image, all
with pairwise-distinct creation timestamps, EC2 image resolution through
`_find_latest_image` returns the image with the maximum creation
timestamp; the selection is invariant under any permutation of the order
in which the catalog returns the candidates, and — the pipeline being a
pure function of catalog state and filter criteria — the same image is
always selected for identical inputs. -/
theorem ec2_resolution_selects_max_perm_invariant
    (versionMap : String → Option String) (lts : List String)
    (release arch : String) (daily : Bool) (l l' : List EC2Image)
    (hperm : l.Perm l')
    (hnodup : (l.map EC2Image.creationDate).Nodup)
    (hne : l ≠ []) :
    ∃ img,
      (ec2FindLatestImage versionMap lts (fun _ => l) release arch .GENERIC daily).fst = .ok img
      ∧ (ec2FindLatestImage versionMap lts (fun _ => l') release arch .GENERIC daily).fst = .ok img
      ∧ img ∈ l ∧ ∀ x ∈ l, x.creationDate ≤ img.creationDate := by
  obtain ⟨img, hsel, hmem, hmax⟩ := selectLatestImage_ok_max "generic" release l hne
  have hne' : l' ≠ [] := fun h => hne (List.Perm.eq_nil (h ▸ hperm))
  obtain ⟨img', hsel', hmem', hmax'⟩ := selectLatestImage_ok_max "generic" release l' hne'
  have hmem'' : img' ∈ l := hperm.mem_iff.mpr hmem'
  have hdate : img.creationDate = img'.creationDate :=
    le_antisymm (hmax' img (hperm.mem_iff.mp hmem)) (hmax img' hmem'')
  have heq : img = img' := List.inj_on_of_nodup_map hnodup hmem hmem'' hdate
  obtain ⟨pat, hpat⟩ : ∃ pat,
      getNameForImageType versionMap lts release .GENERIC daily = .ok pat := by
    by_cases h : release ∈ lts <;> simp [getNameForImageType, h]
  refine ⟨img, ?_, ?_, hmem, hmax⟩
  · simp [ec2FindLatestImage, hpat, ImageType.val, hsel]
  · rw [heq]
    simp [ec2FindLatestImage, hpat, ImageType.val, hsel']

/-- Witness for C1 at a concrete two-image catalog given in both orders. -/
theorem ec2_resolution_selects_max_perm_invariant_witness :
    ∃ img,
      (ec2FindLatestImage (fun _ => none) []
        (fun _ => [⟨"ami-a", "2020-01-01T00:00:00.000Z", ""⟩,
                   ⟨"ami-b", "2021-01-01T00:00:00.000Z", ""⟩])
        "focal" "x86_64" .GENERIC false).fst = .ok img
      ∧ (ec2FindLatestImage (fun _ => none) []
        (fun _ => [⟨"ami-b", "2021-01-01T00:00:00.000Z", ""⟩,
                   ⟨"ami-a", "2020-01-01T00:00:00.000Z", ""⟩])
        "focal" "x86_64" .GENERIC false).fst = .ok img
      ∧ img ∈ [⟨"ami-a", "2020-01-01T00:00:00.000Z", ""⟩,
               ⟨"ami-b", "2021-01-01T00:00:00.000Z", ""⟩]
      ∧ ∀ x ∈ [(⟨"ami-a", "2020-01-01T00:00:00.000Z", ""⟩ : EC2Image),
               ⟨"ami-b", "2021-01-01T00:00:00.000Z", ""⟩],
          x.creationDate ≤ img.creationDate :=
  ec2_resolution_selects_max_perm_invariant (fun _ => none) [] "focal" "x86_64" false
    [⟨"ami-a", "2020-01-01T00:00:00.000Z", ""⟩, ⟨"ami-b", "2021-01-01T00:00:00.000Z", ""⟩]
    [⟨"ami-b", "2021-01-01T00:00:00.000Z", ""⟩, ⟨"ami-a", "2020-01-01T00:00:00.000Z", ""⟩]
    (by decide) (by decide) (by decide)

/-- C2 counterexample: with a catalog that matches zero images for every
filter set, OCI `daily_image` does not fail with an image-not-found error
naming the attempted filters — the uncaught subscript
`matching_image[0]` raises a bare `IndexError`, which carries no message
at all. -/
theorem oci_daily_image_empty_catalog_index_error :
    (ociDailyImage (fun r => if r = "focal" then some "20.04" else none)
        (fun _ => []) "compartment-1" "focal" "Canonical Ubuntu").fst
      = .error .indexError := by rfl

/-- C2 amended: for every filter set that matches zero images, resolution
never returns an image id; EC2 `_find_latest_image` raises an `Exception`
naming the image type and the release (not the full filter set), while
OCI `daily_image` raises an uncaught `IndexError`. -/
theorem image_resolution_empty_catalog_errors
    (versionMap vm₂ : String → Option String) (lts : List String)
    (catalog : EC2Query → List EC2Image) (ocat : OciQuery → List OciImage)
    (release arch comp rel os : String) (it : ImageType) (daily : Bool)
    (hcat : ∀ q, catalog q = [])
    (hocat : ∀ q, ocat q = [])
    (hname : ∃ p, getNameForImageType versionMap lts release it daily = .ok p)
    (hshape : matchesVersionShape rel = true) :
    (ec2FindLatestImage versionMap lts catalog release arch it daily).fst
        = .error (.exception ("Could not find " ++ it.val ++ " image for " ++ release ++ " release"))
    ∧ (ociDailyImage vm₂ ocat comp rel os).fst = .error .indexError := by
  obtain ⟨p, hp⟩ := hname
  constructor
  · simp [ec2FindLatestImage, hp, hcat, selectLatestImage]
  · simp [ociDailyImage, hshape, hocat]

/-- Witness for C2's amended statement at concrete empty catalogs. -/
theorem image_resolution_empty_catalog_errors_witness :
    (ec2FindLatestImage (fun _ => none) [] (fun _ => []) "focal" "x86_64" .GENERIC false).fst
        = .error (.exception ("Could not find " ++ ImageType.GENERIC.val ++ " image for " ++ "focal" ++ " release"))
    ∧ (ociDailyImage (fun _ => none) (fun _ => []) "compartment-1" "22.04" "Canonical Ubuntu").fst
        = .error .indexError :=
  image_resolution_empty_catalog_errors (fun _ => none) (fun _ => none) []
    (fun _ => []) (fun _ => []) "focal" "x86_64" "compartment-1" "22.04"
    "Canonical Ubuntu" .GENERIC false (fun _ => rfl) (fun _ => rfl)
    ⟨"ubuntu/images/hvm-ssd/ubuntu-focal-*", by rfl⟩ (by decide)

/-- C3 counterexample: for a release absent from the release-to-version
mapping, EC2 PRO resolution fails before any catalog query — but with the
raw `KeyError` of `UBUNTU_RELEASE_VERSION_MAP[release]`, not with a
`ValueError` (the codebase's invalid-argument error, cf. OCI's
`ValueError("Invalid release")` and the launch guards). -/
theorem ec2_pro_unknown_release_key_error :
    ec2FindLatestImage (fun r => if r = "focal" then some "20.04" else none)
        [] (fun _ => []) "bogus" "x86_64" .PRO true
      = (.error (.keyError "bogus"), [])
    ∧ PyErr.keyError "bogus" ≠ PyErr.valueError "Invalid release" := by
  constructor
  · rfl
  · decide

/-- C3 amended: for every release name absent from the release-to-version
mapping table, PRO / PRO_FIPS resolution on EC2 and unknown-release
resolution on OCI fail immediately, before any catalog query is issued
(the list of issued queries is empty); EC2 fails with the raw `KeyError`
of the map lookup, OCI with `ValueError("Invalid release")`. -/
theorem pro_resolution_unknown_release_fails_before_query
    (versionMap vm₂ : String → Option String) (lts : List String)
    (catalog : EC2Query → List EC2Image) (ocat : OciQuery → List OciImage)
    (release arch comp rel : String) (it : ImageType) (daily : Bool)
    (hmiss : versionMap release = none)
    (hit : it = .PRO ∨ it = .PRO_FIPS)
    (hmiss₂ : vm₂ rel = none)
    (hshape : matchesVersionShape rel = false) :
    ec2FindLatestImage versionMap lts catalog release arch it daily
        = (.error (.keyError release), [])
    ∧ ociDailyImage vm₂ ocat comp rel "Canonical Ubuntu"
        = (.error (.valueError "Invalid release"), []) := by
  constructor
  · rcases hit with rfl | rfl <;>
      simp [ec2FindLatestImage, getNameForImageType, hmiss]
  · simp [ociDailyImage, hshape, hmiss₂]

/-- Witness for C3's amended statement at a concrete unknown release. -/
theorem pro_resolution_unknown_release_fails_before_query_witness :
    ec2FindLatestImage (fun r => if r = "focal" then some "20.04" else none)
        [] (fun _ => []) "warty" "x86_64" .PRO_FIPS false
        = (.error (.keyError "warty"), [])
    ∧ ociDailyImage (fun r => if r = "focal" then some "20.04" else none)
        (fun _ => []) "compartment-1" "warty" "Canonical Ubuntu"
        = (.error (.valueError "Invalid release"), []) :=
  pro_resolution_unknown_release_fails_before_query
    (fun r => if r = "focal" then some "20.04" else none)
    (fun r => if r = "focal" then some "20.04" else none) []
    (fun _ => []) (fun _ => []) "warty" "x86_64" "compartment-1" "warty"
    .PRO_FIPS false (by decide) (Or.inr rfl) (by decide) (by decide)

/-- C4 counterexample: a snapshot run that reaches the post-shutdown
phase (clean and shutdown succeed, `create_image` is issued) and whose
availability wait then fails leaves `instance.start` uninvoked: there is
no `try`/`finally` in `EC2.snapshot`, so the source instance stays
stopped. -/
theorem ec2_snapshot_wait_failure_no_restart :
    ec2Snapshot true
        ⟨.ok (), .ok (), .ok "ami-new", .error (.exception "WaiterError"), .ok (), .ok ()⟩
      = (.error (.exception "WaiterError"),
         [.clean, .shutdown, .createImage, .waitSnapshot])
    ∧ SnapEvent.start ∉
        [SnapEvent.clean, SnapEvent.shutdown, SnapEvent.createImage, SnapEvent.waitSnapshot] := by
  constructor
  · rfl
  · decide

/-- Whether an `Except` is a success. -/
def exceptOk : Except PyErr α → Bool
  | .ok _ => true
  | .error _ => false

/-- C4 amended: `instance.start` is invoked exactly when every step before
it — the optional clean, the shutdown, `create_image`, the availability
wait and the tagging — succeeds; on an exception anywhere after shutdown
completes (image creation, wait, or tagging), the source instance is not
restarted. -/
theorem ec2_snapshot_start_iff_all_steps_ok (clean : Bool) (o : SnapOracles) :
    SnapEvent.start ∈ (ec2Snapshot clean o).snd ↔
      ((clean = true → exceptOk o.clean) ∧ exceptOk o.shutdown
        ∧ exceptOk o.createImage ∧ exceptOk o.waitSnapshot
        ∧ exceptOk o.tagResource) := by
  rcases o with ⟨c, s, ci, w, t, st⟩
  cases clean <;> cases c <;> cases s <;> cases ci <;> cases w <;> cases t <;> cases st <;>
    simp [ec2Snapshot, exceptOk]

/-- C5 counterexample: an explicitly supplied empty-string
`access_key_id` does not take precedence over the configuration-file
value: the `or`-fallback of `EC2.__init__` treats `""` as falsy, so the
file value wins even though the argument was explicitly supplied (it is
not `None`, so it does count towards "all required values supplied"). -/
theorem ec2_empty_string_arg_loses_to_file :
    ec2InitCreds
        (fun k => if k = "access_key_id" then some "FILEKEY"
          else if k = "secret_access_key" then some "FILESECRET"
          else some "eu-west-1")
        (some "") none (some "us-east-1")
      = ((some "FILEKEY", some "FILESECRET", some "us-east-1"), true)
    ∧ (some "FILEKEY" : Option String) ≠ some "" := by
  constructor
  · rfl
  · decide

/-- C5 amended: when all required values are passed (not `None`) the
configuration file is not loaded at all; when only some are passed it is
loaded and fills the gaps, and a *non-empty* explicitly supplied argument
value takes precedence over the file value (an explicitly supplied empty
string falls back to the file value, by Python `or` truthiness). -/
theorem ec2_config_args_over_file (file : String → Option String)
    (aVal sVal rVal : String) (hv : aVal ≠ "") :
    (ec2InitCreds file (some aVal) (some sVal) (some rVal)).snd = false
    ∧ (ec2InitCreds file (some aVal) none (some rVal)).snd = true
    ∧ (ec2InitCreds file (some aVal) none (some rVal)).fst.fst = some aVal
    ∧ (ec2InitCreds file (some aVal) none (some rVal)).fst.snd.fst
        = file "secret_access_key" := by
  refine ⟨rfl, rfl, ?_, rfl⟩
  simp [ec2InitCreds, checkAndSetConfig, pyOr, pyFalsy, hv]

/-- Witness for C5's amended statement at concrete argument values. -/
theorem ec2_config_args_over_file_witness :
    (ec2InitCreds (fun _ => some "FROMFILE") (some "AKIA") (some "SECRET") (some "us-east-1")).snd = false
    ∧ (ec2InitCreds (fun _ => some "FROMFILE") (some "AKIA") none (some "us-east-1")).snd = true
    ∧ (ec2InitCreds (fun _ => some "FROMFILE") (some "AKIA") none (some "us-east-1")).fst.fst = some "AKIA"
    ∧ (ec2InitCreds (fun _ => some "FROMFILE") (some "AKIA") none (some "us-east-1")).fst.snd.fst
        = (fun _ => some "FROMFILE") "secret_access_key" :=
  ec2_config_args_over_file (fun _ => some "FROMFILE") "AKIA" "SECRET" "us-east-1" (by decide)

/-- C6: for every call to `launch` with an empty or null `image_id`, on
the EC2 and OCI adapters alike, the call fails with the
`ValueError` guard naming the missing parameter and no provider SDK call
— in particular no launch request — is issued. -/
theorem launch_rejects_empty_image_id (vpcId : String) (imageId : Option String)
    (vpcSubnets : Option (List String))
    (createInst subnetLookup launchInst : Except PyErr String)
    (h : pyFalsy imageId = true) :
    ec2Launch vpcId imageId vpcSubnets createInst
        = (.error (.valueError ("ec2 launch requires image_id param. Found: " ++ pyStr imageId)), [])
    ∧ ociLaunch imageId subnetLookup launchInst
        = (.error (.valueError ("oci launch requires image_id param. Found: " ++ pyStr imageId)), []) := by
  constructor <;> simp [ec2Launch, ociLaunch, h]

/-- Witness for C6 at the two degenerate image ids, `None` and `""`. -/
theorem launch_rejects_empty_image_id_witness :
    (ec2Launch "vpc-1" none none (.ok "i-1")
        = (.error (.valueError ("ec2 launch requires image_id param. Found: " ++ pyStr none)), [])
      ∧ ociLaunch none (.ok "subnet-1") (.ok "i-1")
        = (.error (.valueError ("oci launch requires image_id param. Found: " ++ pyStr none)), []))
    ∧ (ec2Launch "vpc-1" (some "") none (.ok "i-1")
        = (.error (.valueError ("ec2 launch requires image_id param. Found: " ++ pyStr (some ""))), [])
      ∧ ociLaunch (some "") (.ok "subnet-1") (.ok "i-1")
        = (.error (.valueError ("oci launch requires image_id param. Found: " ++ pyStr (some ""))), [])) :=
  ⟨launch_rejects_empty_image_id "vpc-1" none none (.ok "i-1") (.ok "subnet-1") (.ok "i-1") (by decide),
   launch_rejects_empty_image_id "vpc-1" (some "") none (.ok "i-1") (.ok "subnet-1") (.ok "i-1") (by decide)⟩

/-- Exhaustion of the IP-discovery loop: when every attempt in range is
retryable, running `n ≤ total` remaining attempts makes exactly `n` subp
calls and `n` sleeps and ends in the `TimeoutError` carrying the final
raw result. -/
theorem lxdIpGo_exhausts (poll : Nat → SubpResult) (total : Nat)
    (hr : ∀ i, i < total → pollParsedIp (poll i) = none) :
    ∀ n, n ≤ total →
      lxdIpGo poll total n
        = (.error (.timeoutError (ipTimeoutMsg total (poll (total - 1)))), n, n) := by
  intro n
  induction n with
  | zero => intro _; rfl
  | succ n ih =>
    intro hn
    have hi : total - (n + 1) < total := by omega
    simp [lxdIpGo, hr _ hi, ih (by omega)]

/-- C7: a polling function that never reaches the target state — in
particular one whose raw output is malformed text, has a non-zero exit
code, or is an empty string, all retryable conditions counting toward the
budget — makes the IP-discovery waiter perform exactly `budget` polling
calls (and `budget` sleeps) and then fail with a `TimeoutError` carrying
the final observed raw state (exit code, stdout, stderr). -/
theorem lxd_ip_never_ready_times_out (budget : Nat) (poll : Nat → SubpResult)
    (hr : ∀ i, i < budget → pollParsedIp (poll i) = none) :
    lxdIp budget poll
        = (.error (.timeoutError (ipTimeoutMsg budget (poll (budget - 1)))), budget, budget)
    ∧ pollParsedIp ⟨"unparseable", "", 0⟩ = none
    ∧ pollParsedIp ⟨"10.0.0.1 (eth0)", "", 1⟩ = none
    ∧ pollParsedIp ⟨"", "", 0⟩ = none := by
  refine ⟨lxdIpGo_exhausts poll budget hr budget (le_refl budget), ?_, ?_, ?_⟩ <;> rfl

/-- Witness for C7: a poll that always returns unparseable output, with a
budget of 3, makes exactly 3 calls and times out carrying the raw state. -/
theorem lxd_ip_never_ready_times_out_witness :
    lxdIp 3 (fun _ => ⟨"unparseable", "", 0⟩)
        = (.error (.timeoutError (ipTimeoutMsg 3 ((fun _ => (⟨"unparseable", "", 0⟩ : SubpResult)) (3 - 1)))), 3, 3)
    ∧ pollParsedIp ⟨"unparseable", "", 0⟩ = none
    ∧ pollParsedIp ⟨"10.0.0.1 (eth0)", "", 1⟩ = none
    ∧ pollParsedIp ⟨"", "", 0⟩ = none :=
  lxd_ip_never_ready_times_out 3 (fun _ => ⟨"unparseable", "", 0⟩)
    (fun _ _ => by rfl)

/-- C8: calling wait-for-stopped on an instance flagged ephemeral performs
zero polling calls (and zero stopped-state waits, the wait being skipped
entirely), while on a non-ephemeral instance the stopped-state wait is
performed exactly once. -/
theorem lxd_wait_for_stop_skips_ephemeral (budget : Nat) (poll : Nat → String) :
    lxdWaitForStop true poll budget = (.ok (), 0, 0)
    ∧ (lxdWaitForStop false poll budget).snd.fst = 1 := by
  constructor
  · rfl
  · simp [lxdWaitForStop]

/-- C9: `image_serial` parses the serial out of the image display name
with the fixed pattern `ubuntu/.*/.*/.*-(?P<serial>\d+(\.\d+)?)$`: for the
display name `ubuntu/server/images/hvm-ssd/ubuntu-focal-20.04-20210224`
it returns `"20210224"`, and for the display name `ubuntu/bad-name` it
fails with the image-serial-not-found error naming the image. -/
theorem ec2_image_serial_fixed_pattern :
    ec2ImageSerial
        (fun imageId =>
          if imageId = "ami-good" then
            [⟨"ami-good", "2021-02-24T00:00:00.000Z",
              "ubuntu/server/images/hvm-ssd/ubuntu-focal-20.04-20210224"⟩]
          else
            [⟨"ami-bad", "2021-02-24T00:00:00.000Z", "ubuntu/bad-name"⟩])
        "ami-good" = .ok "20210224"
    ∧ ec2ImageSerial
        (fun imageId =>
          if imageId = "ami-good" then
            [⟨"ami-good", "2021-02-24T00:00:00.000Z",
              "ubuntu/server/images/hvm-ssd/ubuntu-focal-20.04-20210224"⟩]
          else
            [⟨"ami-bad", "2021-02-24T00:00:00.000Z", "ubuntu/bad-name"⟩])
        "ami-bad" = .error (.exception "Could not find image serial for image: ami-bad") := by
  constructor <;> rfl

/-- C10: on the OCI adapter, `released_image` is a pure delegation to
`daily_image`: for every release, operating system and catalog state the
two return exactly the same result and issue the same queries, so the
released and daily catalogs are indistinguishable through this
interface. -/
theorem oci_released_image_eq_daily_image
    (versionMap : String → Option String) (catalog : OciQuery → List OciImage)
    (compartmentId release operatingSystem : String) :
    ociReleasedImage versionMap catalog compartmentId release operatingSystem
      = ociDailyImage versionMap catalog compartmentId release operatingSystem := rfl
